import Mathlib

/-!
Verification development for the VeriMeet meeting-assistant orchestrator.

The Python source is shallowly embedded:
* pure helpers (`IntentParser._parse_datetime`, `FactChecker.format_fact_check_message`,
  the string formatting in `finalize_meeting`) become Lean functions;
* the stateful agent (`VeriMeetAgent`) becomes explicit state passing over an
  `AgentState` structure, with every external service call (LLM, web search, chat,
  calendar, email, page creation) supplied as an oracle in an `Env` structure and
  recorded in an explicit trace of `Call`s;
* Python's dynamic typing, where it matters for exception propagation, is embedded
  by a `PyVal` universe of Python values with attribute access returning
  `Except String _` (an `AttributeError`/`TypeError` is an `Except.error`);
* `datetime.now()` is determinized as a day number (days since 1970-01-01) passed
  as an explicit argument; Python's `date.weekday()` (Monday = 0) and
  `strftime("%Y-%m-%d")` are implemented over that day number.

Logging calls (`logger.info` etc.) have no effect on state or results and are
omitted, except where a logging f-string performs an operation that can raise
(`claim[:50]` in `process_transcript`), which is kept in the dynamic embedding.
-/

namespace VeriMeet

/-! ## Dates: day numbers, weekday, `strftime("%Y-%m-%d")`

`today` is a day count with day 0 = 1970-01-01 (a Thursday, so Python
`weekday() = 3` there; Python uses Monday = 0). -/

/-- Python `date.weekday()` for a day number (Monday = 0). -/
def weekday (d : Nat) : Nat := (d + 3) % 7

/-- Zero-pad a natural number to the given width, as Python `"%0Nd"`. -/
def padNum (w n : Nat) : String :=
  let s := toString n
  if s.length < w then String.mk (List.replicate (w - s.length) '0') ++ s else s

/-- Convert a day number (days since 1970-01-01) to (year, month, day) of the
proleptic Gregorian calendar (Howard Hinnant's `civil_from_days`, specialized to
nonnegative day numbers so that all arithmetic stays in `Nat`). -/
def civilFromDays (d : Nat) : Nat × Nat × Nat :=
  let z := d + 719468
  let era := z / 146097
  let doe := z % 146097
  let yoe := (doe - doe / 1460 + doe / 36524 - doe / 146096) / 365
  let y := yoe + era * 400
  let doy := doe - (365 * yoe + yoe / 4 - yoe / 100)
  let mp := (5 * doy + 2) / 153
  let day := doy - (153 * mp + 2) / 5 + 1
  let m := if mp < 10 then mp + 3 else mp - 9
  (if m ≤ 2 then y + 1 else y, m, day)

/-- Python `date.strftime("%Y-%m-%d")` for a day number. -/
def fmtDate (d : Nat) : String :=
  let c := civilFromDays d
  padNum 4 c.1 ++ "-" ++ padNum 2 c.2.1 ++ "-" ++ padNum 2 c.2.2

theorem fmtDate_ne_empty (d : Nat) : fmtDate d ≠ "" := by
  intro h
  have h2 := congrArg String.length h
  simp only [fmtDate, String.length_append] at h2
  have h3 : (("" : String)).length = 0 := rfl
  have h4 : (("-" : String)).length = 1 := rfl
  rw [h3, h4] at h2
  omega

/-! ## `IntentParser._parse_datetime` (src/core/intent_parser.py, lines 104-160) -/

/-- The `details` mapping of an intent, restricted to the string-valued fields the
date heuristic reads (`details.get("date", "")`, `details.get("time", "")`); an
absent key and a `None`/empty value behave identically downstream and are both
represented by `none`/`""`. -/
structure DTDetails where
  date : Option String := none
  time : Option String := none

/-- The dictionary built by `_parse_datetime`: `raw_date`, `raw_time` and
`needs_parsing` are always set; `date` and `time` only when resolved. -/
structure ParsedDT where
  raw_date : String
  raw_time : String
  needs_parsing : Bool := true
  date : Option String := none
  time : Option String := none
  deriving DecidableEq, Repr

/-- Python truthiness of a string. -/
def truthyStr (s : String) : Bool := decide (s ≠ "")

/-- Python truthiness of `dict.get(key)` for a possibly-absent string value. -/
def truthyOptStr (o : Option String) : Bool := truthyStr (o.getD "")

/-- Python `needle in hay` for strings (substring containment). -/
def containsSub (needle hay : String) : Bool := decide (needle.toList <:+: hay.toList)

/-- Python `str.lower()` (kept as an explicit list computation so that concrete
instances evaluate). -/
def pyLower (s : String) : String := String.mk (s.toList.map Char.toLower)

/-- Digit value of a character. -/
def digitVal (c : Char) : Nat := c.toNat - 48

/-- Consume the optional parts of the time regex `(\d{1,2}):?(\d{2})?\s*(am|pm)?`
after the leading digit group: optional colon, optional two-digit minute,
whitespace, optional am/pm. Since every remaining piece of the pattern can match
the empty string, the greedy match never backtracks. -/
def timeGroups (hour : Nat) (rest : List Char) : Nat × Nat × Option String :=
  let rest₁ := match rest with
    | ':' :: cs => cs
    | cs => cs
  let (minute, rest₂) := match rest₁ with
    | c1 :: c2 :: cs =>
      if c1.isDigit ∧ c2.isDigit then (10 * digitVal c1 + digitVal c2, cs)
      else (0, rest₁)
    | _ => (0, rest₁)
  let rest₃ := rest₂.dropWhile Char.isWhitespace
  let period : Option String := match rest₃ with
    | 'a' :: 'm' :: _ => some "am"
    | 'p' :: 'm' :: _ => some "pm"
    | _ => none
  (hour, minute, period)

/-- `re.search(r'(\d{1,2}):?(\d{2})?\s*(am|pm)?', s)`: find the leftmost digit,
take one or two digits greedily for the hour, then match the optional groups. -/
def timeSearch : List Char → Option (Nat × Nat × Option String)
  | [] => none
  | c :: cs =>
    if c.isDigit then
      match cs with
      | c2 :: cs2 =>
        if c2.isDigit then some (timeGroups (10 * digitVal c + digitVal c2) cs2)
        else some (timeGroups (digitVal c) cs)
      | [] => some (timeGroups (digitVal c) [])
    else timeSearch cs

/-- The time-string half of `_parse_datetime`: regex search on the lowercased
string, then 12-hour to 24-hour conversion and zero-padded `HH:MM` rendering. -/
def parse_time_str (time_str : String) : Option String :=
  match timeSearch (pyLower time_str).toList with
  | none => none
  | some (h, m, period) =>
    let hour :=
      if period = some "pm" ∧ h ≠ 12 then h + 12
      else if period = some "am" ∧ h = 12 then 0
      else h
    some (padNum 2 hour ++ ":" ++ padNum 2 m)

/-- `IntentParser._parse_datetime(details)` with `datetime.now()` determinized to
the day number `today`. Returns `none` when both fields are empty, otherwise the
parsed dictionary, unless neither a date nor a time was resolved. -/
def parse_datetime (today : Nat) (details : DTDetails) : Option ParsedDT :=
  let date_str := details.date.getD ""
  let time_str := details.time.getD ""
  if date_str = "" ∧ time_str = "" then none
  else
    let date_lower := if date_str ≠ "" then pyLower date_str else ""
    let pdate : Option String :=
      if containsSub "tomorrow" date_lower then
        some (fmtDate (today + 1))
      else if containsSub "next week" date_lower then
        some (fmtDate (today + (7 - weekday today)))
      else if containsSub "next friday" date_lower ∨ containsSub "friday" date_lower then
        let days_ahead := (4 + 7 - weekday today) % 7
        let days_ahead := if days_ahead = 0 then 7 else days_ahead
        some (fmtDate (today + days_ahead))
      else none
    let ptime : Option String :=
      if time_str ≠ "" then parse_time_str time_str else none
    let parsed : ParsedDT :=
      { raw_date := date_str, raw_time := time_str, date := pdate, time := ptime }
    if truthyOptStr parsed.date ∨ truthyOptStr parsed.time then some parsed else none

/-! ## Typed data model (the dictionary shapes the agent reads)

Each structure restricts a Python dict to the keys the code reads, with
`Option` for possibly-absent keys. A key stored with value `None` behaves in
the code like an absent key everywhere the typed embedding is used (both reach
the `.get` default or are falsy), so both are represented by `none`. -/

/-- An item of the detected-facts list (`{claim, type, context}`); only `claim`
and `context` are read by the agent. -/
structure Fact where
  claim : Option String := none
  context : Option String := none
  deriving Repr, DecidableEq

/-- A source entry inside a verification result. -/
structure Source where
  title : Option String := none
  snippet : Option String := none
  url : Option String := none
  deriving Repr, DecidableEq

/-- The dict returned by `verify_fact`; `success`/`verified` are the Python
truthiness of `.get("success")` / `.get("verified", False)`. -/
structure Verification where
  success : Bool := false
  verified : Bool := false
  confidence : Option String := none
  sources : List Source := []
  error : Option String := none
  deriving Repr, DecidableEq

/-- The record appended to `self.verified_facts` (src/agent.py lines 77-81). -/
structure VFact where
  claim : String
  context : Option String
  verification : Verification
  deriving Repr, DecidableEq

/-- The `details` mapping of an intent, restricted to the keys the handlers
read (`recipients`, `topic`, `date`, `time`). -/
structure IntentDetails where
  recipients : List String := []
  topic : Option String := none
  date : Option String := none
  time : Option String := none
  deriving Repr, DecidableEq

/-- An item of the detected-intents list. `parsed_datetime` is doubly optional:
the outer layer is key presence (set only for `schedule` intents by
`detect_intents`), the inner layer is the `None`-vs-dict result of
`_parse_datetime`. -/
structure Intent where
  type : Option String := none
  confidence : Option String := none
  action : Option String := none
  details : Option IntentDetails := none
  context : Option String := none
  parsed_datetime : Option (Option ParsedDT) := none
  deriving Repr, DecidableEq

/-- Result dict of `send_chat_message` (meetstream adapter: always a dict). -/
structure ChatResult where
  success : Bool := false
  error : Option String := none
  deriving Repr, DecidableEq

/-- Result dict of `create_calendar_event`. -/
structure CalResult where
  success : Bool := false
  event_id : Option String := none
  error : Option String := none
  deriving Repr, DecidableEq

/-- Result dict of `send_email_summary`. -/
structure EmailResult where
  success : Bool := false
  error : Option String := none
  deriving Repr, DecidableEq

/-- Result dict of `create_notion_page`. -/
structure PageResult where
  success : Bool := false
  url : Option String := none
  error : Option String := none
  deriving Repr, DecidableEq

/-- Oracles for every external call the agent makes. `complete` is the OpenAI
chat-completion call used by the Summarizer (`Except.error` = the call raised,
caught by the `except` in the source). `nowDate`/`nowStamp` determinize
`datetime.now().strftime(...)` at the two agent call sites. -/
structure Env where
  detect_facts : String → List Fact
  detect_intents : String → Option String → List Intent
  verify_fact : String → Option String → Verification
  send_chat : String → String → ChatResult
  create_event : String → Option String → Option String → String → CalResult
  send_email : List String → String → String → List VFact → EmailResult
  create_page : String → String → PageResult
  complete : String → Except String String
  nowDate : String
  nowStamp : String

/-- One external call made by the agent, recorded in order. -/
inductive Call where
  | detectFacts (transcript : String)
  | verifyFact (claim : String) (context : Option String)
  | sendChat (bot msg : String)
  | detectIntents (transcript : String) (context : Option String)
  | createEvent (title : String) (date time : Option String) (description : String)
  | sendEmail (recipients : List String) (subject summary : String) (vfacts : List VFact)
  | summarizeLLM (transcript : String) (prev : Option String)
  | finalizeLLM (transcripts : List String) (vfacts : List VFact)
  | createPage (title content : String)
  deriving Repr, DecidableEq

/-! ## FactChecker.format_fact_check_message (src/core/fact_checker.py, 80-109) -/

def format_fact_check_message (claim : String) (vr : Verification) : String :=
  if vr.success = false then
    "🔍 Fact Check: Unable to verify \x27" ++ claim ++ "\x27 - " ++ vr.error.getD "Unknown error"
  else
    let emoji := if vr.verified then "✅" else "⚠️"
    let status := if vr.verified then "VERIFIED" else "NEEDS VERIFICATION"
    let confidence := vr.confidence.getD "unknown"
    let base := emoji ++ " Fact Check: " ++ claim ++ "\nStatus: " ++ status
      ++ " (Confidence: " ++ confidence ++ ")"
    match vr.sources with
    | [] => base
    | top :: _ =>
      let m := base ++ "\n📄 Source: " ++ top.title.getD "N/A" ++ "\n"
        ++ (top.snippet.getD "").take 150 ++ "..."
      if truthyOptStr top.url then m ++ "\n🔗 " ++ top.url.getD "" else m

/-! ## Summarizer (src/core/summarizer.py) -/

/-- Python `str.strip()`: drop whitespace from both ends (kept as an explicit
list computation so that concrete instances evaluate). -/
def pyStrip (s : String) : String :=
  String.mk ((s.toList.dropWhile Char.isWhitespace).reverse.dropWhile Char.isWhitespace).reverse

/-- The prompt built by `Summarizer.summarize` (`if previous_summary:` is
Python truthiness, so an empty previous summary selects the fresh prompt). -/
def summarizePrompt (transcript : String) (previous_summary : Option String) : String :=
  if truthyOptStr previous_summary then
    "Previous meeting summary:\n" ++ previous_summary.getD ""
      ++ "\n\nNew transcript segment:\n" ++ transcript
      ++ "\n\nPlease update the summary to include the new information. Maintain a concise, structured format with key points."
  else
    "Create a concise summary of this meeting transcript segment:\n" ++ transcript
      ++ "\n\nInclude key discussion points, decisions, and action items."

def Summarizer.summarize (complete : String → Except String String)
    (transcript : String) (previous_summary : Option String) : String :=
  match complete (summarizePrompt transcript previous_summary) with
  | .ok summary => pyStrip summary
  | .error e => "Summary generation failed: " ++ e

/-- The facts section of the final-summary prompt. Note: the source reads
`fact.get('verification_status', 'N/A')`, but the dicts the agent stores in
`verified_facts` never carry a `verification_status` key, so the default
`'N/A'` is always rendered. -/
def finalizeFactsSection (verified_facts : List VFact) : String :=
  if verified_facts.isEmpty then ""
  else
    "\n\nVerified Facts:\n"
      ++ String.intercalate "\n" (verified_facts.map (fun fact => "- " ++ fact.claim ++ ": " ++ "N/A"))

def finalizePrompt (all_transcripts : List String) (verified_facts : List VFact) : String :=
  "Create a comprehensive final summary of this meeting:\n"
    ++ String.intercalate "\n\n" all_transcripts
    ++ finalizeFactsSection verified_facts
    ++ "\n\nFormat the summary with:\n1. Meeting Overview\n2. Key Discussion Points\n3. Decisions Made\n4. Action Items\n5. Verified Facts (if any)\n"

def Summarizer.finalize_summary (complete : String → Except String String)
    (all_transcripts : List String) (verified_facts : List VFact) : String :=
  match complete (finalizePrompt all_transcripts verified_facts) with
  | .ok summary => pyStrip summary
  | .error e => "Final summary generation failed: " ++ e

/-! ## VeriMeetAgent (src/agent.py), explicit state passing

Every method returns the new state together with its return value and the
ordered list of external calls it performed. Logging is effect-free and
omitted. -/

/-- The mutable fields of `VeriMeetAgent`. -/
structure AgentState where
  bot_id : Option String := none
  transcripts : List String := []
  verified_facts : List VFact := []
  detected_intents : List Intent := []
  current_summary : Option String := none
  deriving Repr

/-- `VeriMeetAgent.__init__(bot_id)`. -/
def VeriMeetAgent.init (bot_id : Option String := none) : AgentState :=
  { bot_id := bot_id }

/-- `VeriMeetAgent.set_bot_id`. -/
def set_bot_id (st : AgentState) (bot_id : String) : AgentState :=
  { st with bot_id := some bot_id }

/-- Python `a or b` for two optional strings (`a` is kept when truthy). -/
def pyOrStrOpt (a b : Option String) : Option String :=
  if truthyOptStr a then a else b

/-- Step 2 of `process_transcript` (lines 54-81) for one detected fact:
returns the verified-fact records appended (zero or one) and the external
calls made. The chat post happens only under a truthy bot id, and its result
is only logged, so it influences neither component beyond the trace. -/
def process_fact (env : Env) (bot : Option String) (fact : Fact) : List VFact × List Call :=
  let claim := fact.claim.getD ""
  if claim ≠ "" then
    let vr := env.verify_fact claim fact.context
    if vr.success then
      let chat_message := format_fact_check_message claim vr
      let chatCalls : List Call :=
        if truthyOptStr bot then [.sendChat (bot.getD "") chat_message] else []
      ([{ claim := claim, context := fact.context, verification := vr }],
       .verifyFact claim fact.context :: chatCalls)
    else ([], [.verifyFact claim fact.context])
  else ([], [])

/-- Body of `VeriMeetAgent._handle_schedule_intent` (lines 119-156) up to the
enclosing `try`. The only raise point reachable with typed inputs is
`intent.get("parsed_datetime", {}).get("date"/"time")` when the stored
`parsed_datetime` is `None`; Python's `or` short-circuit means it is reached
only when the corresponding `details` field is falsy. -/
def handle_schedule_body (env : Env) (bot : Option String) (intent : Intent) :
    Except String (List Call) := do
  let details := intent.details.getD {}
  let action := intent.action.getD "Schedule meeting"
  let title := if truthyOptStr details.topic then details.topic.getD "" else action
  let date ←
    if truthyOptStr details.date then pure details.date
    else
      match intent.parsed_datetime with
      | none => pure (none : Option String)
      | some none => throw "AttributeError: NoneType object has no attribute get"
      | some (some p) => pure p.date
  let time ←
    if truthyOptStr details.time then pure details.time
    else
      match intent.parsed_datetime with
      | none => pure (none : Option String)
      | some none => throw "AttributeError: NoneType object has no attribute get"
      | some (some p) => pure p.time
  let description := intent.context.getD ""
  let result := env.create_event title date time description
  let confirmCalls : List Call :=
    if result.success then
      if truthyOptStr bot then
        let msg := "âœ… Calendar event created: " ++ title
        let msg := if truthyOptStr date then msg ++ " on " ++ date.getD "" else msg
        let msg := if truthyOptStr time then msg ++ " at " ++ time.getD "" else msg
        [.sendChat (bot.getD "") msg]
      else []
    else []
  return .createEvent title date time description :: confirmCalls

/-- `VeriMeetAgent._handle_schedule_intent`: the whole body is wrapped in
`try ... except Exception`, and the raise point precedes every external call,
so a raising body performs no calls. -/
def handle_schedule_intent (env : Env) (bot : Option String) (intent : Intent) : List Call :=
  match handle_schedule_body env bot intent with
  | .ok calls => calls
  | .error _ => []

/-- The chat message posted when an email intent has no recipients
(src/agent.py line 172; the leading characters are the literal bytes of the
source file). -/
def needRecipientsMsg : String :=
  "ğŸ“§ Email requested but no recipients specified. Please provide email addresses."

/-- `VeriMeetAgent._handle_email_intent` (lines 158-199). Reads but never
writes agent state; `current_summary` and `verified_facts` are the values the
agent holds at the call site. -/
def handle_email_intent (env : Env) (bot : Option String)
    (current_summary : Option String) (verified_facts : List VFact)
    (intent : Intent) : List Call :=
  let details := intent.details.getD {}
  let recipients := details.recipients
  if recipients.isEmpty then
    if truthyOptStr bot then [.sendChat (bot.getD "") needRecipientsMsg] else []
  else
    let summary :=
      if truthyOptStr current_summary then current_summary.getD ""
      else "Meeting summary not yet available."
    let subject := "Meeting Summary - " ++ env.nowDate
    let result := env.send_email recipients subject summary verified_facts
    let confirmCalls : List Call :=
      if result.success then
        if truthyOptStr bot then
          [.sendChat (bot.getD "") ("âœ… Email summary sent to " ++ String.intercalate ", " recipients)]
        else []
      else []
    .sendEmail recipients subject summary verified_facts :: confirmCalls

/-- Step 3 of `process_transcript` (lines 88-103) for one detected intent:
the intents appended to `detected_intents` (zero or one) and the handler's
external calls. -/
def process_intent (env : Env) (bot : Option String)
    (current_summary : Option String) (verified_facts : List VFact)
    (intent : Intent) : List Intent × List Call :=
  let confidence := intent.confidence.getD "low"
  if confidence = "high" ∨ confidence = "medium" then
    let handlerCalls :=
      if intent.type = some "schedule" then
        handle_schedule_intent env bot intent
      else if intent.type = some "email" then
        handle_email_intent env bot current_summary verified_facts intent
      else []
    ([intent], handlerCalls)
  else ([], [])

/-- The dict returned by `process_transcript`. -/
structure ProcResult where
  facts_detected : Nat
  facts_verified : Nat
  intents_detected : Nat
  summary_length : Nat
  deriving Repr, DecidableEq

/-- `VeriMeetAgent.process_transcript` (lines 34-117): append the segment,
verify detected facts (posting to chat when a bot id is set), retain and
handle high/medium-confidence intents (handlers see the post-append
`verified_facts` and the pre-update `current_summary`), then update the
rolling summary once. -/
def process_transcript (env : Env) (st : AgentState) (transcript : String) :
    AgentState × ProcResult × List Call :=
  let transcripts := st.transcripts ++ [transcript]
  let facts := env.detect_facts transcript
  let factStep := facts.foldl
    (fun (acc : List VFact × List Call) fact =>
      let r := process_fact env st.bot_id fact
      (acc.1 ++ r.1, acc.2 ++ r.2))
    ([], [])
  let verified_facts := st.verified_facts ++ factStep.1
  let intents := env.detect_intents transcript st.current_summary
  let intentStep := intents.foldl
    (fun (acc : List Intent × List Call) intent =>
      let r := process_intent env st.bot_id st.current_summary verified_facts intent
      (acc.1 ++ r.1, acc.2 ++ r.2))
    ([], [])
  let detected_intents := st.detected_intents ++ intentStep.1
  let current_summary := Summarizer.summarize env.complete transcript st.current_summary
  ({ st with transcripts := transcripts, verified_facts := verified_facts,
             detected_intents := detected_intents, current_summary := some current_summary },
   { facts_detected := facts.length, facts_verified := verified_facts.length,
     intents_detected := intents.length, summary_length := current_summary.length },
   Call.detectFacts transcript :: factStep.2
     ++ Call.detectIntents transcript st.current_summary :: intentStep.2
     ++ [Call.summarizeLLM transcript st.current_summary])

/-- The dict returned by `finalize_meeting`. -/
structure FinalizeResult where
  success : Bool
  notion_url : Option String
  summary_length : Nat
  facts_verified : Nat
  transcript_segments : Nat
  deriving Repr, DecidableEq

/-- Status label per verified fact in the posted page (src/agent.py line 234;
the leading characters are the literal bytes of the source file). -/
def statusLabel (vr : Verification) : String :=
  if vr.verified then "âœ… VERIFIED" else "âš\u00A0ï¸ NEEDS VERIFICATION"

/-- The `## Verified Facts` section appended to the posted content when
`verified_facts` is non-empty (lines 229-235). -/
def verifiedFactsSection (verified_facts : List VFact) : String :=
  "\n\n## Verified Facts\n\n"
    ++ String.join (verified_facts.map
        (fun fact => "- " ++ fact.claim ++ ": " ++ statusLabel fact.verification ++ "\n"))

/-- `VeriMeetAgent.finalize_meeting` (lines 201-254). The method only reads
the session fields, so the state it returns is the state it was given. -/
def finalize_meeting (env : Env) (st : AgentState) (meeting_title : Option String) :
    AgentState × FinalizeResult × List Call :=
  let final_summary := Summarizer.finalize_summary env.complete st.transcripts st.verified_facts
  let title :=
    if truthyOptStr meeting_title then meeting_title.getD ""
    else "Meeting Summary - " ++ env.nowStamp
  let summary_content :=
    final_summary ++ (if st.verified_facts.isEmpty then "" else verifiedFactsSection st.verified_facts)
  let notion_result := env.create_page title summary_content
  (st,
   { success := notion_result.success, notion_url := notion_result.url,
     summary_length := final_summary.length, facts_verified := st.verified_facts.length,
     transcript_segments := st.transcripts.length },
   [Call.finalizeLLM st.transcripts st.verified_facts, Call.createPage title summary_content])

/-- `VeriMeetAgent.get_current_summary` (`self.current_summary or "No summary yet."`). -/
def get_current_summary (st : AgentState) : String :=
  if truthyOptStr st.current_summary then st.current_summary.getD ""
  else "No summary yet."

/-! ## Dynamic embedding (`PyVal`): Python values and exception propagation

The typed embedding above assumes the external calls return well-shaped
dictionaries. To settle the claim that no exception escapes
`process_transcript`/`finalize_meeting` for *arbitrary* returned values, the
same methods are re-embedded over a universe of Python values, with attribute
access, subscripting and slicing returning `Except String _`
(`Except.error` = an uncaught Python exception). -/

/-- A Python value as far as the agent inspects it (dict keys are strings). -/
inductive PyVal where
  | none
  | bool (b : Bool)
  | int (n : Int)
  | str (s : String)
  | list (xs : List PyVal)
  | dict (kvs : List (String × PyVal))
  deriving Repr

/-- Python truthiness. -/
def pyTruthy : PyVal → Bool
  | .none => false
  | .bool b => b
  | .int n => n != 0
  | .str s => s != ""
  | .list xs => !xs.isEmpty
  | .dict kvs => !kvs.isEmpty

/-- `v == s` for a string literal `s` (only a `str` compares equal). -/
def pyEqStr (v : PyVal) (s : String) : Bool :=
  match v with
  | .str t => t == s
  | _ => false

/-- `v.get(key, dflt)`: defined on dicts, raises `AttributeError` otherwise. -/
def pyGet (v : PyVal) (key : String) (dflt : PyVal) : Except String PyVal :=
  match v with
  | .dict kvs => .ok ((kvs.lookup key).getD dflt)
  | _ => .error "AttributeError: object has no attribute get"

/-- `v[key]` for a string key. -/
def pyGetItem (v : PyVal) (key : String) : Except String PyVal :=
  match v with
  | .dict kvs =>
    match kvs.lookup key with
    | some x => .ok x
    | Option.none => .error "KeyError"
  | _ => .error "TypeError: value is not subscriptable by a string"

/-- `v[0]`. -/
def pyIndexZero (v : PyVal) : Except String PyVal :=
  match v with
  | .str s => if s ≠ "" then .ok (.str (s.take 1)) else .error "IndexError"
  | .list xs =>
    match xs with
    | x :: _ => .ok x
    | [] => .error "IndexError"
  | .dict _ => .error "KeyError: 0"
  | _ => .error "TypeError: value is not subscriptable"

/-- `v[:n]`: defined on strings and lists, raises `TypeError` otherwise. -/
def pySlice (v : PyVal) (n : Nat) : Except String PyVal :=
  match v with
  | .str s => .ok (.str (s.take n))
  | .list xs => .ok (.list (xs.take n))
  | _ => .error "TypeError: value is not subscriptable"

mutual

/-- Python `str(v)` (as used by f-string interpolation). -/
def pyStr : PyVal → String
  | .none => "None"
  | .bool b => if b then "True" else "False"
  | .int n => toString n
  | .str s => s
  | .list xs => "[" ++ String.intercalate ", " (pyReprList xs) ++ "]"
  | .dict kvs => "\x7b" ++ String.intercalate ", " (pyReprKVs kvs) ++ "\x7d"

/-- Python `repr(v)`. -/
def pyRepr : PyVal → String
  | .str s => "\x27" ++ s ++ "\x27"
  | .list xs => "[" ++ String.intercalate ", " (pyReprList xs) ++ "]"
  | .dict kvs => "\x7b" ++ String.intercalate ", " (pyReprKVs kvs) ++ "\x7d"
  | v => pyStr v

def pyReprList : List PyVal → List String
  | [] => []
  | x :: xs => pyRepr x :: pyReprList xs

def pyReprKVs : List (String × PyVal) → List String
  | [] => []
  | (k, v) :: kvs => ("\x27" ++ k ++ "\x27: " ++ pyRepr v) :: pyReprKVs kvs

end

/-- `FactChecker.format_fact_check_message` over dynamic values: the raise
points are `.get` on a non-dict result, `sources[0]` on a truthy non-sequence,
`.get` on a non-dict first source, and slicing a non-sliceable snippet. -/
def format_fact_check_message_py (claim : PyVal) (vr : PyVal) : Except String String := do
  let successV ← pyGet vr "success" .none
  if !pyTruthy successV then
    let errV ← pyGet vr "error" (.str "Unknown error")
    return "🔍 Fact Check: Unable to verify \x27" ++ pyStr claim ++ "\x27 - " ++ pyStr errV
  else
    let verifiedV ← pyGet vr "verified" (.bool false)
    let confidenceV ← pyGet vr "confidence" (.str "unknown")
    let sourcesV ← pyGet vr "sources" (.list [])
    let emoji := if pyTruthy verifiedV then "✅" else "⚠️"
    let status := if pyTruthy verifiedV then "VERIFIED" else "NEEDS VERIFICATION"
    let base := emoji ++ " Fact Check: " ++ pyStr claim ++ "\nStatus: " ++ status
      ++ " (Confidence: " ++ pyStr confidenceV ++ ")"
    if pyTruthy sourcesV then
      let top ← pyIndexZero sourcesV
      let titleV ← pyGet top "title" (.str "N/A")
      let snippetV ← pyGet top "snippet" (.str "")
      let snippetTrunc ← pySlice snippetV 150
      let m := base ++ "\n📄 Source: " ++ pyStr titleV ++ "\n" ++ pyStr snippetTrunc ++ "..."
      let urlV ← pyGet top "url" .none
      if pyTruthy urlV then
        let urlItem ← pyGetItem top "url"
        return m ++ "\n🔗 " ++ pyStr urlItem
      else
        return m
    else
      return base

/-- Oracles for the dynamic embedding. `detect_facts`/`detect_intents` return
a Python list of arbitrary values (the source guarantees the outer value is a
list but does not inspect the items); `verify_fact`, `send_chat` and
`create_page` return arbitrary values; `complete` is the Summarizer's LLM
call, whose own exceptions the Summarizer catches. -/
structure EnvPy where
  detect_facts : String → List PyVal
  detect_intents : String → Option String → List PyVal
  verify_fact : PyVal → PyVal → PyVal
  send_chat : String → String → PyVal
  create_page : String → String → PyVal
  complete : String → Except String String
  nowStamp : String

/-- The mutable fields of `VeriMeetAgent`, with dynamically-typed contents for
the values that flow in from external calls. -/
structure AgentStatePy where
  bot_id : Option String := none
  transcripts : List String := []
  verified_facts : List PyVal := []
  detected_intents : List PyVal := []
  current_summary : Option String := none

/-- Step 2 of `process_transcript` for one item of the detected-facts list,
over dynamic values. The logging call at line 70 slices `claim[:50]` and is
kept because slicing can raise. -/
def process_fact_py (env : EnvPy) (bot : Option String) (fact : PyVal) :
    Except String (List PyVal) := do
  let claimV ← pyGet fact "claim" (.str "")
  if pyTruthy claimV then
    let ctxV ← pyGet fact "context" .none
    let vr := env.verify_fact claimV ctxV
    let successV ← pyGet vr "success" .none
    if pyTruthy successV then
      let chat_message ← format_fact_check_message_py claimV vr
      if truthyOptStr bot then
        let chatRes := env.send_chat (bot.getD "") chat_message
        let chatSucc ← pyGet chatRes "success" .none
        if pyTruthy chatSucc then
          let _ ← pySlice claimV 50
          pure ()
        else
          let _ ← pyGet chatRes "error" .none
          pure ()
      else
        pure ()
      return [PyVal.dict [("claim", claimV), ("context", ctxV), ("verification", vr)]]
    else
      return []
  else
    return []

/-- Step 3 of `process_transcript` for one item of the detected-intents list,
over dynamic values. The intent handlers wrap their entire bodies in
`try ... except Exception` and never write agent state, so they cannot
propagate an exception and contribute nothing here. -/
def process_intent_py (intent : PyVal) : Except String (List PyVal) := do
  let _typeV ← pyGet intent "type" .none
  let confV ← pyGet intent "confidence" (.str "low")
  if pyEqStr confV "high" ∨ pyEqStr confV "medium" then
    return [intent]
  else
    return []

/-- `VeriMeetAgent.process_transcript` over dynamic values. -/
def process_transcript_py (env : EnvPy) (st : AgentStatePy) (transcript : String) :
    Except String (AgentStatePy × ProcResult) := do
  let transcripts := st.transcripts ++ [transcript]
  let facts := env.detect_facts transcript
  let newFacts ← facts.foldlM
    (fun acc fact => do pure (acc ++ (← process_fact_py env st.bot_id fact)))
    ([] : List PyVal)
  let verified_facts := st.verified_facts ++ newFacts
  let intents := env.detect_intents transcript st.current_summary
  let newIntents ← intents.foldlM
    (fun acc intent => do pure (acc ++ (← process_intent_py intent)))
    ([] : List PyVal)
  let current_summary := Summarizer.summarize env.complete transcript st.current_summary
  let st2 : AgentStatePy :=
    { st with transcripts := transcripts,
              verified_facts := verified_facts,
              detected_intents := st.detected_intents ++ newIntents,
              current_summary := some current_summary }
  return (st2,
          { facts_detected := facts.length, facts_verified := verified_facts.length,
            intents_detected := intents.length, summary_length := current_summary.length })

/-- `Summarizer.finalize_summary` over dynamic stored facts: the prompt
construction (which reads `fact.get(...)` on each stored fact) happens before
the `try`, so it can raise; the LLM call itself is guarded. -/
def finalize_summary_py (complete : String → Except String String)
    (all_transcripts : List String) (verified_facts : List PyVal) :
    Except String String := do
  let combined := String.intercalate "\n\n" all_transcripts
  let factsSection ←
    if !verified_facts.isEmpty then do
      let lines ← verified_facts.mapM (fun fact => do
        let claimV ← pyGet fact "claim" (.str "N/A")
        let statusV ← pyGet fact "verification_status" (.str "N/A")
        pure ("- " ++ pyStr claimV ++ ": " ++ pyStr statusV))
      pure ("\n\nVerified Facts:\n" ++ String.intercalate "\n" lines)
    else
      pure ""
  let prompt := "Create a comprehensive final summary of this meeting:\n" ++ combined
    ++ factsSection
    ++ "\n\nFormat the summary with:\n1. Meeting Overview\n2. Key Discussion Points\n3. Decisions Made\n4. Action Items\n5. Verified Facts (if any)\n"
  match complete prompt with
  | .ok summary => return pyStrip summary
  | .error e => return "Final summary generation failed: " ++ e

/-- `VeriMeetAgent.finalize_meeting` over dynamic values. -/
def finalize_meeting_py (env : EnvPy) (st : AgentStatePy) (meeting_title : Option String) :
    Except String (AgentStatePy × PyVal) := do
  let final_summary ← finalize_summary_py env.complete st.transcripts st.verified_facts
  let title :=
    if truthyOptStr meeting_title then meeting_title.getD ""
    else "Meeting Summary - " ++ env.nowStamp
  let factsBlock ←
    if !st.verified_facts.isEmpty then do
      let lines ← st.verified_facts.mapM (fun fact => do
        let claimV ← pyGet fact "claim" (.str "N/A")
        let verificationV ← pyGet fact "verification" (.dict [])
        let verifiedV ← pyGet verificationV "verified" .none
        let status := if pyTruthy verifiedV then "âœ… VERIFIED" else "âš\u00A0ï¸ NEEDS VERIFICATION"
        pure ("- " ++ pyStr claimV ++ ": " ++ status ++ "\n"))
      pure ("\n\n## Verified Facts\n\n" ++ String.join lines)
    else
      pure ""
  let summary_content := final_summary ++ factsBlock
  let notion_result := env.create_page title summary_content
  let successV ← pyGet notion_result "success" .none
  let urlV ← pyGet notion_result "url" .none
  return (st, PyVal.dict
    [("success", successV), ("notion_url", urlV),
     ("summary_length", .int final_summary.length),
     ("facts_verified", .int st.verified_facts.length),
     ("transcript_segments", .int st.transcripts.length)])

/-! ## Well-formedness of dynamic values

These predicates delimit exactly the shapes of externally returned values on
which the agent's attribute accesses, subscripts and slices are defined. -/

/-- The value is a Python dict. -/
def isDictB : PyVal → Bool
  | .dict _ => true
  | _ => false

/-- A first search source on which `format_fact_check_message` cannot raise:
a dict whose `snippet` value (when present) is sliceable. -/
def WFSource (v : PyVal) : Bool :=
  match v with
  | .dict kvs =>
    match (kvs.lookup "snippet").getD (.str "") with
    | .str _ => true
    | .list _ => true
    | _ => false
  | _ => false

/-- A verification result on which the fact-check path cannot raise: a dict
whose `sources` value, when truthy, is a non-empty list with a well-formed
first element. -/
def WFVerification (v : PyVal) : Bool :=
  match v with
  | .dict kvs =>
    let sources := (kvs.lookup "sources").getD (.list [])
    if pyTruthy sources then
      match sources with
      | .list (s0 :: _) => WFSource s0
      | _ => false
    else true
  | _ => false

/-- A detected-fact item on which step 2 cannot raise: a dict whose `claim`
value is a string, or falsy (a falsy claim is skipped before any use). -/
def WFFact (v : PyVal) : Bool :=
  match v with
  | .dict kvs =>
    match (kvs.lookup "claim").getD (.str "") with
    | .str _ => true
    | c => !pyTruthy c
  | _ => false

/-- A stored verified-fact record on which `finalize_meeting` cannot raise: a
dict whose `verification` value (when present) is a dict. The agent only ever
stores records of this shape. -/
def WFStoredFact (v : PyVal) : Bool :=
  match v with
  | .dict kvs =>
    match (kvs.lookup "verification").getD (.dict []) with
    | .dict _ => true
    | _ => false
  | _ => false

theorem pyGet_dict (kvs : List (String × PyVal)) (key : String) (dflt : PyVal) :
    pyGet (.dict kvs) key dflt = .ok ((kvs.lookup key).getD dflt) := rfl

theorem except_bind_ok {ε α β : Type} (a : α) (f : α → Except ε β) :
    (Except.ok a : Except ε α) >>= f = f a := rfl

theorem except_pure_bind {ε α β : Type} (a : α) (f : α → Except ε β) :
    (pure a : Except ε α) >>= f = f a := rfl

theorem format_py_ok (claim vr : PyVal) (hwf : WFVerification vr = true) :
    ∃ s, format_fact_check_message_py claim vr = .ok s := by
  cases vr with
  | dict kvs =>
    rw [format_fact_check_message_py]
    rw [pyGet_dict, except_bind_ok]
    cases h1 : pyTruthy ((kvs.lookup "success").getD .none) with
    | false =>
      simp only [h1, Bool.not_false, if_true, pyGet_dict, except_bind_ok]
      exact ⟨_, rfl⟩
    | true =>
      simp only [h1, Bool.not_true, Bool.false_eq_true, if_false, pyGet_dict, except_bind_ok]
      cases h2 : pyTruthy ((kvs.lookup "sources").getD (.list [])) with
      | false =>
        simp only [h2, Bool.false_eq_true, if_false]
        exact ⟨_, rfl⟩
      | true =>
        simp only [WFVerification, h2, if_true] at hwf
        simp only [h2, if_true]
        cases hs : (kvs.lookup "sources").getD (.list []) with
        | list xs =>
          cases xs with
          | nil => rw [hs] at hwf; simp at hwf
          | cons s0 rest =>
            rw [hs] at hwf
            have hidx : pyIndexZero (.list (s0 :: rest)) = .ok s0 := rfl
            rw [hidx, except_bind_ok]
            cases s0 with
            | dict kvs0 =>
              simp only [pyGet_dict, except_bind_ok]
              cases hsn : (kvs0.lookup "snippet").getD (.str "") with
              | str s =>
                have hsl : pySlice (.str s) 150 = .ok (.str (s.take 150)) := rfl
                rw [hsl, except_bind_ok]
                cases h3 : pyTruthy ((kvs0.lookup "url").getD .none) with
                | false =>
                  simp only [h3, Bool.false_eq_true, if_false]
                  exact ⟨_, rfl⟩
                | true =>
                  simp only [h3, if_true]
                  cases hu : kvs0.lookup "url" with
                  | none => rw [hu] at h3; simp [pyTruthy] at h3
                  | some u =>
                    have hitem : pyGetItem (.dict kvs0) "url" = .ok u := by
                      simp [pyGetItem, hu]
                    rw [hitem, except_bind_ok]
                    exact ⟨_, rfl⟩
              | list xs2 =>
                have hsl : pySlice (.list xs2) 150 = .ok (.list (xs2.take 150)) := rfl
                rw [hsl, except_bind_ok]
                cases h3 : pyTruthy ((kvs0.lookup "url").getD .none) with
                | false =>
                  simp only [h3, Bool.false_eq_true, if_false]
                  exact ⟨_, rfl⟩
                | true =>
                  simp only [h3, if_true]
                  cases hu : kvs0.lookup "url" with
                  | none => rw [hu] at h3; simp [pyTruthy] at h3
                  | some u =>
                    have hitem : pyGetItem (.dict kvs0) "url" = .ok u := by
                      simp [pyGetItem, hu]
                    rw [hitem, except_bind_ok]
                    exact ⟨_, rfl⟩
              | none => simp [WFSource, hsn] at hwf
              | bool b => simp [WFSource, hsn] at hwf
              | int n => simp [WFSource, hsn] at hwf
              | dict kvs2 => simp [WFSource, hsn] at hwf
            | none => simp [WFSource] at hwf
            | bool b => simp [WFSource] at hwf
            | int n => simp [WFSource] at hwf
            | str s => simp [WFSource] at hwf
            | list xs2 => simp [WFSource] at hwf
        | none => rw [hs] at hwf; simp at hwf
        | bool b => rw [hs] at hwf; simp at hwf
        | int n => rw [hs] at hwf; simp at hwf
        | str s => rw [hs] at hwf; simp at hwf
        | dict kvs2 => rw [hs] at hwf; simp at hwf
  | none => simp [WFVerification] at hwf
  | bool b => simp [WFVerification] at hwf
  | int n => simp [WFVerification] at hwf
  | str s => simp [WFVerification] at hwf
  | list xs => simp [WFVerification] at hwf

theorem process_fact_py_ok (env : EnvPy) (bot : Option String) (fact : PyVal)
    (hf : WFFact fact = true)
    (hv : ∀ c ctx, WFVerification (env.verify_fact c ctx) = true)
    (hc : ∀ b m, isDictB (env.send_chat b m) = true) :
    ∃ out, process_fact_py env bot fact = .ok out ∧ ∀ v ∈ out, WFStoredFact v = true := by
  cases fact with
  | dict kvs =>
    simp only [process_fact_py, pyGet_dict, except_bind_ok]
    cases h1 : pyTruthy ((kvs.lookup "claim").getD (.str "")) with
    | false =>
      simp only [h1, Bool.false_eq_true, if_false]
      exact ⟨[], rfl, by simp⟩
    | true =>
      simp only [h1, if_true]
      have hstr : ∃ s, (kvs.lookup "claim").getD (.str "") = .str s := by
        cases hcl : (kvs.lookup "claim").getD (.str "") with
        | str s => exact ⟨s, rfl⟩
        | none => rw [hcl] at h1; simp [pyTruthy] at h1
        | bool b =>
          simp [WFFact, hcl] at hf
          rw [hcl] at h1
          rw [h1] at hf
          simp at hf
        | int n =>
          simp [WFFact, hcl] at hf
          rw [hcl] at h1
          rw [h1] at hf
          simp at hf
        | list xs =>
          simp [WFFact, hcl] at hf
          rw [hcl] at h1
          rw [h1] at hf
          simp at hf
        | dict kvs2 =>
          simp [WFFact, hcl] at hf
          rw [hcl] at h1
          rw [h1] at hf
          simp at hf
      obtain ⟨cs, hcl⟩ := hstr
      rw [hcl]
      have hvr := hv (.str cs) ((kvs.lookup "context").getD .none)
      cases hd : env.verify_fact (.str cs) ((kvs.lookup "context").getD .none) with
      | dict kvs1 =>
        simp only [pyGet_dict, except_bind_ok]
        have hst : WFStoredFact (.dict
            [("claim", .str cs), ("context", (kvs.lookup "context").getD .none),
             ("verification", .dict kvs1)]) = true := rfl
        cases h2 : pyTruthy ((kvs1.lookup "success").getD .none) with
        | false =>
          simp only [h2, Bool.false_eq_true, if_false]
          exact ⟨[], rfl, by simp⟩
        | true =>
          simp only [h2, if_true]
          rw [hd] at hvr
          obtain ⟨msg, hmsg⟩ := format_py_ok (.str cs) (.dict kvs1) hvr
          rw [hmsg, except_bind_ok]
          cases hb : truthyOptStr bot with
          | false =>
            simp only [hb, Bool.false_eq_true, if_false, except_bind_ok]
            refine ⟨_, rfl, ?_⟩
            intro v hvm
            rw [List.mem_singleton.mp hvm]
            exact hst
          | true =>
            simp only [hb, if_true]
            have hcd := hc (bot.getD "") msg
            cases hce : env.send_chat (bot.getD "") msg with
            | dict kvs2 =>
              simp only [pyGet_dict, except_bind_ok]
              cases h3 : pyTruthy ((kvs2.lookup "success").getD .none) with
              | true =>
                simp only [h3, if_true]
                have hsl : pySlice (.str cs) 50 = .ok (.str (cs.take 50)) := rfl
                rw [hsl, except_bind_ok]
                refine ⟨_, rfl, ?_⟩
                intro v hvm
                rw [List.mem_singleton.mp hvm]
                exact hst
              | false =>
                simp only [h3, Bool.false_eq_true, if_false, pyGet_dict,
                  except_bind_ok]
                refine ⟨_, rfl, ?_⟩
                intro v hvm
                rw [List.mem_singleton.mp hvm]
                exact hst
            | none => rw [hce] at hcd; simp [isDictB] at hcd
            | bool b2 => rw [hce] at hcd; simp [isDictB] at hcd
            | int n2 => rw [hce] at hcd; simp [isDictB] at hcd
            | str s2 => rw [hce] at hcd; simp [isDictB] at hcd
            | list xs2 => rw [hce] at hcd; simp [isDictB] at hcd
      | none => rw [hd] at hvr; simp [WFVerification] at hvr
      | bool b => rw [hd] at hvr; simp [WFVerification] at hvr
      | int n => rw [hd] at hvr; simp [WFVerification] at hvr
      | str s => rw [hd] at hvr; simp [WFVerification] at hvr
      | list xs => rw [hd] at hvr; simp [WFVerification] at hvr
  | none => simp [WFFact] at hf
  | bool b => simp [WFFact] at hf
  | int n => simp [WFFact] at hf
  | str s => simp [WFFact] at hf
  | list xs => simp [WFFact] at hf

theorem process_intent_py_ok (intent : PyVal) (hd : isDictB intent = true) :
    ∃ out, process_intent_py intent = .ok out := by
  cases intent with
  | dict kvs =>
    simp only [process_intent_py, pyGet_dict, except_bind_ok]
    split
    · exact ⟨_, rfl⟩
    · exact ⟨_, rfl⟩
  | none => simp [isDictB] at hd
  | bool b => simp [isDictB] at hd
  | int n => simp [isDictB] at hd
  | str s => simp [isDictB] at hd
  | list xs => simp [isDictB] at hd

theorem foldlM_append_ok {α β : Type} (g : α → Except String (List β)) (q : β → Bool) :
    ∀ (xs : List α) (acc : List β),
      (∀ x ∈ xs, ∃ out, g x = .ok out ∧ ∀ v ∈ out, q v = true) →
      (∀ v ∈ acc, q v = true) →
      ∃ res, (xs.foldlM (fun a x => do pure (a ++ (← g x))) acc) = .ok res
        ∧ ∀ v ∈ res, q v = true
  | [], acc, _, hacc => ⟨acc, rfl, hacc⟩
  | x :: xs, acc, hxs, hacc => by
    obtain ⟨out, hout, hq⟩ := hxs x (List.mem_cons_self x xs)
    have hrest := foldlM_append_ok g q xs (acc ++ out)
      (fun z hz => hxs z (List.mem_cons_of_mem x hz))
      (fun v hv => (List.mem_append.mp hv).elim (hacc v) (hq v))
    obtain ⟨res, hres, hqr⟩ := hrest
    refine ⟨res, ?_, hqr⟩
    rw [List.foldlM_cons, hout, except_bind_ok]
    exact hres

theorem mapM_except_ok {α β : Type} (g : α → Except String β) :
    ∀ xs : List α, (∀ x ∈ xs, ∃ y, g x = .ok y) → ∃ ys, xs.mapM g = .ok ys
  | [], _ => ⟨[], rfl⟩
  | x :: xs, h => by
    obtain ⟨y, hy⟩ := h x (List.mem_cons_self x xs)
    obtain ⟨ys, hys⟩ := mapM_except_ok g xs (fun z hz => h z (List.mem_cons_of_mem x hz))
    refine ⟨y :: ys, ?_⟩
    rw [List.mapM_cons, hy, except_bind_ok, hys, except_bind_ok]
    rfl

/-! ## Helper lemmas -/

theorem truthyOptStr_none_eq : truthyOptStr none = false := rfl

theorem truthyOptStr_fmtDate (d : Nat) : truthyOptStr (some (fmtDate d)) = true := by
  unfold truthyOptStr truthyStr
  rw [Option.getD_some]
  exact decide_eq_true (fmtDate_ne_empty d)

theorem foldl_accum_fst {α β γ : Type} (f : α → List β × List γ) :
    ∀ (xs : List α) (acc : List β × List γ),
      (xs.foldl (fun a x => (a.1 ++ (f x).1, a.2 ++ (f x).2)) acc).1
        = acc.1 ++ xs.flatMap (fun x => (f x).1)
  | [], acc => by simp
  | x :: xs, acc => by
    simp only [List.foldl_cons, foldl_accum_fst f xs, List.flatMap_cons, List.append_assoc]

theorem flatMap_toList_eq_filterMap {α β : Type} (g : α → Option β) :
    ∀ xs : List α, xs.flatMap (fun x => (g x).toList) = xs.filterMap g
  | [] => rfl
  | x :: xs => by
    cases h : g x <;>
      simp [List.flatMap_cons, List.filterMap_cons, h, flatMap_toList_eq_filterMap g xs]

theorem flatMap_singleton_eq_filter {α : Type} (p : α → Bool) :
    ∀ xs : List α, xs.flatMap (fun x => if p x then [x] else []) = xs.filter p
  | [] => rfl
  | x :: xs => by
    cases h : p x <;>
      simp [List.flatMap_cons, List.filter_cons, h, flatMap_singleton_eq_filter p xs]

/-- The retention test of step 3: `confidence in ["high", "medium"]` with the
`.get("confidence", "low")` default. -/
def intentRetained (intent : Intent) : Bool :=
  decide (intent.confidence.getD "low" = "high" ∨ intent.confidence.getD "low" = "medium")

/-- An intent the session may retain. -/
def IntentOk (intent : Intent) : Prop :=
  intent.confidence.getD "low" = "high" ∨ intent.confidence.getD "low" = "medium"

/-- The session invariant: every retained intent has high or medium confidence. -/
def AgentInv (st : AgentState) : Prop :=
  ∀ i ∈ st.detected_intents, IntentOk i

/-- Whether a recorded call is the summarizer invocation. -/
def isSummarizeCall : Call → Bool
  | .summarizeLLM _ _ => true
  | _ => false

theorem process_fact_fst (env : Env) (bot : Option String) (fact : Fact) :
    (process_fact env bot fact).1 =
      ((if fact.claim.getD "" ≠ "" ∧ (env.verify_fact (fact.claim.getD "") fact.context).success
        then some { claim := fact.claim.getD "", context := fact.context,
                    verification := env.verify_fact (fact.claim.getD "") fact.context }
        else none) : Option VFact).toList := by
  simp only [process_fact]
  by_cases h1 : fact.claim.getD "" = ""
  · simp [h1]
  · by_cases h2 : (env.verify_fact (fact.claim.getD "") fact.context).success
    · simp [h1, h2]
    · simp [h1, h2]

theorem process_intent_fst (env : Env) (bot : Option String)
    (current_summary : Option String) (verified_facts : List VFact) (intent : Intent) :
    (process_intent env bot current_summary verified_facts intent).1 =
      if intentRetained intent then [intent] else [] := by
  simp only [process_intent]
  by_cases hp : intent.confidence.getD "low" = "high" ∨ intent.confidence.getD "low" = "medium"
  · have hb : intentRetained intent = true := decide_eq_true hp
    rw [if_pos hp, hb]
    rfl
  · have hb : intentRetained intent = false := decide_eq_false hp
    rw [if_neg hp, hb]
    rfl

theorem process_transcript_verified_facts (env : Env) (st : AgentState) (t : String) :
    (process_transcript env st t).1.verified_facts =
      st.verified_facts ++ (env.detect_facts t).filterMap (fun fact =>
        if fact.claim.getD "" ≠ "" ∧ (env.verify_fact (fact.claim.getD "") fact.context).success
        then some { claim := fact.claim.getD "", context := fact.context,
                    verification := env.verify_fact (fact.claim.getD "") fact.context }
        else none) := by
  simp only [process_transcript]
  rw [foldl_accum_fst (process_fact env st.bot_id)]
  rw [funext (process_fact_fst env st.bot_id), flatMap_toList_eq_filterMap]
  simp

theorem process_transcript_detected_intents (env : Env) (st : AgentState) (t : String) :
    (process_transcript env st t).1.detected_intents =
      st.detected_intents
        ++ (env.detect_intents t st.current_summary).filter intentRetained := by
  simp only [process_transcript]
  rw [foldl_accum_fst (process_intent env st.bot_id st.current_summary
        (st.verified_facts ++ ((env.detect_facts t).foldl
          (fun a x => (a.1 ++ (process_fact env st.bot_id x).1,
                       a.2 ++ (process_fact env st.bot_id x).2)) ([], [])).1))]
  rw [funext (process_intent_fst env st.bot_id st.current_summary _),
      flatMap_singleton_eq_filter]
  simp

/-- An occurrence of `p` inside `l₁ ++ l₂` lies inside `l₁`, inside `l₂`, or
straddles the boundary, splitting `p` into a non-empty suffix of `l₁` followed
by a non-empty prefix of `l₂`. -/
theorem infix_append_split {α : Type} {p l₁ l₂ : List α} (h : p <:+: l₁ ++ l₂) :
    p <:+: l₁ ∨ p <:+: l₂ ∨
      ∃ x y, x ++ y = p ∧ x ≠ [] ∧ y ≠ [] ∧ x <:+ l₁ ∧ y <+: l₂ := by
  obtain ⟨s, t, hst⟩ := h
  have hst2 : s ++ (p ++ t) = l₁ ++ l₂ := by
    simpa [List.append_assoc] using hst
  rcases List.append_eq_append_iff.mp hst2 with ⟨a, ha1, ha2⟩ | ⟨c, hc1, hc2⟩
  · rcases List.append_eq_append_iff.mp ha2 with ⟨b, hb1, hb2⟩ | ⟨q, hq1, hq2⟩
    · left
      exact ⟨s, b, by rw [ha1, hb1]; simp [List.append_assoc]⟩
    · by_cases haN : a = []
      · right; left
        subst haN
        have hpq : p = q := by simpa using hq1
        exact ⟨[], t, by rw [hq2, hpq]; simp⟩
      · by_cases hqN : q = []
        · left
          subst hqN
          have hpa : p = a := by simpa using hq1
          exact ⟨s, [], by rw [ha1, hpa]; simp⟩
        · right; right
          exact ⟨a, q, hq1.symm, haN, hqN, ⟨s, ha1.symm⟩, ⟨t, hq2.symm⟩⟩
  · right; left
    exact ⟨c, t, by rw [hc2]; simp [List.append_assoc]⟩

/-- The failure branch of `format_fact_check_message` introduces no
`Confidence:` label: when neither the claim nor the error text contains one,
neither does the assembled message. -/
theorem contains_label_cases (claim err : String)
    (hcl : containsSub "Confidence:" claim = false)
    (herr : containsSub "Confidence:" err = false) :
    containsSub "Confidence:"
      ("🔍 Fact Check: Unable to verify \x27" ++ claim ++ "\x27 - " ++ err) = false := by
  apply decide_eq_false
  intro hin
  simp only [String.toList, String.data_append, List.append_assoc] at hin
  rcases infix_append_split hin with h1 | h1 | ⟨x, y, hxy, hxN, hyN, hxs, hyp⟩
  · have hA : ¬ ("Confidence:".data <:+: "🔍 Fact Check: Unable to verify \x27".data) := by
      decide
    exact hA h1
  · rcases infix_append_split h1 with h2 | h2 | ⟨x, y, hxy, hxN, hyN, hxs, hyp⟩
    · exact (of_decide_eq_false hcl) h2
    · rcases infix_append_split h2 with h3 | h3 | ⟨x, y, hxy, hxN, hyN, hxs, hyp⟩
      · have hB : ¬ ("Confidence:".data <:+: "\x27 - ".data) := by decide
        exact hB h3
      · exact (of_decide_eq_false herr) h3
      · have hmem : x ∈ ("\x27 - ".data).tails := (List.mem_tails _ _).mpr hxs
        have hxp : x <+: "Confidence:".data := ⟨y, hxy⟩
        have hall : ∀ z ∈ ("\x27 - ".data).tails,
            z = [] ∨ ¬ z <+: "Confidence:".data := by decide
        rcases hall x hmem with h | h
        · exact hxN h
        · exact h hxp
    · cases y with
      | nil => exact hyN rfl
      | cons c y2 =>
        obtain ⟨t2, ht2⟩ := hyp
        rw [List.cons_append] at ht2
        have hBd : "\x27 - ".data ++ err.data = '\x27' :: (" - ".data ++ err.data) := rfl
        rw [hBd] at ht2
        injection ht2 with hc _
        have hcp : c ∈ x ++ c :: y2 := List.mem_append_right x (List.mem_cons_self c y2)
        rw [hxy, hc] at hcp
        exact absurd hcp (by decide)
  · have hmem : x ∈ ("🔍 Fact Check: Unable to verify \x27".data).tails :=
      (List.mem_tails _ _).mpr hxs
    have hxp : x <+: "Confidence:".data := ⟨y, hxy⟩
    have hall : ∀ z ∈ ("🔍 Fact Check: Unable to verify \x27".data).tails,
        z = [] ∨ ¬ z <+: "Confidence:".data := by decide
    rcases hall x hmem with h | h
    · exact hxN h
    · exact h hxp

/-! ## Claims -/

/-- Claim C9, counterexample: the claim quantifies over every claim string,
but a claim text that itself carries a confidence label makes the failure
message contain one, so the claim as stated is false. -/
theorem format_fact_check_message_confidence_counterexample :
    ({ success := false } : Verification).success = false ∧
    containsSub "Confidence:"
      (format_fact_check_message "see (Confidence: high)" { success := false }) = true :=
  ⟨rfl, by decide⟩

/-- Claim C9 (amended): on a verification result whose success field is false,
`format_fact_check_message` returns exactly the failure template, which
contains the supplied error text (or "Unknown error" when absent) and contains
a confidence label only when the claim or error text themselves contain one. -/
theorem format_fact_check_message_failure (claim : String) (vr : Verification)
    (h : vr.success = false) :
    format_fact_check_message claim vr =
      "🔍 Fact Check: Unable to verify \x27" ++ claim ++ "\x27 - "
        ++ vr.error.getD "Unknown error" ∧
    containsSub (vr.error.getD "Unknown error") (format_fact_check_message claim vr) = true ∧
    (containsSub "Confidence:" claim = false →
      containsSub "Confidence:" (vr.error.getD "Unknown error") = false →
      containsSub "Confidence:" (format_fact_check_message claim vr) = false) := by
  have hmsg : format_fact_check_message claim vr =
      "🔍 Fact Check: Unable to verify \x27" ++ claim ++ "\x27 - "
        ++ vr.error.getD "Unknown error" := by
    simp [format_fact_check_message, h]
  refine ⟨hmsg, ?_, ?_⟩
  · rw [hmsg]
    apply decide_eq_true
    exact ⟨("🔍 Fact Check: Unable to verify \x27" ++ claim ++ "\x27 - ").toList, [],
      by simp [String.toList, String.data_append, List.append_assoc]⟩
  · intro hcl herr
    rw [hmsg]
    exact contains_label_cases claim (vr.error.getD "Unknown error") hcl herr

/-- Witness for the amended C9 at a concrete claim and error. -/
theorem format_fact_check_message_failure_witness :
    ({ success := false, error := some "network down" } : Verification).success = false ∧
    format_fact_check_message "Revenue grew 20%"
        { success := false, error := some "network down" } =
      "🔍 Fact Check: Unable to verify \x27" ++ "Revenue grew 20%" ++ "\x27 - "
        ++ "network down" ∧
    containsSub "network down"
      (format_fact_check_message "Revenue grew 20%"
        { success := false, error := some "network down" }) = true ∧
    containsSub "Confidence:"
      (format_fact_check_message "Revenue grew 20%"
        { success := false, error := some "network down" }) = false := by
  have h := format_fact_check_message_failure "Revenue grew 20%"
    { success := false, error := some "network down" } rfl
  exact ⟨rfl, h.1, h.2.1, h.2.2 (by decide) (by decide)⟩

/-- Claim C10: `finalize_meeting` reads but never mutates session state: the
state after the call is the state before it, so finalization can be repeated
and a later `process_transcript` continues from the same accumulated state. -/
theorem finalize_meeting_frame (env : Env) (st : AgentState) (mt : Option String) :
    (finalize_meeting env st mt).1 = st ∧
    (∀ t, process_transcript env (finalize_meeting env st mt).1 t
      = process_transcript env st t) ∧
    (∀ mt2, finalize_meeting env (finalize_meeting env st mt).1 mt2
      = finalize_meeting env st mt2) :=
  ⟨rfl, fun _ => rfl, fun _ => rfl⟩

/-- Claim C5: the posted page content is the final summary followed by a
`## Verified Facts` section exactly when `verified_facts` is non-empty; the
section has one `- claim: status` line per fact, with the status chosen by
`verification.verified`; with no verified facts the content is exactly the
final summary. -/
theorem finalize_meeting_content_spec (env : Env) (st : AgentState) (mt : Option String) :
    ∃ title content,
      (finalize_meeting env st mt).2.2 =
        [Call.finalizeLLM st.transcripts st.verified_facts, Call.createPage title content] ∧
      content = Summarizer.finalize_summary env.complete st.transcripts st.verified_facts
        ++ (if st.verified_facts = [] then ""
            else "\n\n## Verified Facts\n\n"
              ++ String.join (st.verified_facts.map (fun fact =>
                  "- " ++ fact.claim ++ ": "
                    ++ (if fact.verification.verified then "âœ… VERIFIED"
                        else "âš\u00A0ï¸ NEEDS VERIFICATION")
                    ++ "\n"))) ∧
      (content = Summarizer.finalize_summary env.complete st.transcripts st.verified_facts
        ↔ st.verified_facts = []) := by
  have hsec : ∀ f fs, 0 < (verifiedFactsSection (f :: fs)).length := by
    intro f fs
    simp only [verifiedFactsSection, String.length_append]
    have h20 : 0 < ("\n\n## Verified Facts\n\n" : String).length := by decide
    omega
  refine ⟨if truthyOptStr mt then mt.getD "" else "Meeting Summary - " ++ env.nowStamp,
    Summarizer.finalize_summary env.complete st.transcripts st.verified_facts
      ++ (if st.verified_facts.isEmpty then "" else verifiedFactsSection st.verified_facts),
    rfl, ?_, ?_⟩
  · cases h : st.verified_facts with
    | nil => rfl
    | cons f fs => simp [verifiedFactsSection, statusLabel]
  · constructor
    · intro hc
      cases h : st.verified_facts with
      | nil => rfl
      | cons f fs =>
        exfalso
        rw [h] at hc
        simp only [List.isEmpty_cons, Bool.false_eq_true, if_false] at hc
        have hlen := congrArg String.length hc
        rw [String.length_append] at hlen
        have := hsec f fs
        omega
    · intro h
      rw [h]
      simp

/-- Claim C6: a high/medium-confidence email intent with empty or absent
`details.recipients` never reaches the email-send adapter; the handler posts
the "recipients needed" chat message exactly when a bot id is truthy, and
performs no external call otherwise. -/
theorem email_intent_without_recipients (env : Env) (bot : Option String)
    (current_summary : Option String) (verified_facts : List VFact) (intent : Intent)
    (hrec : (intent.details.getD {}).recipients = [])
    (htype : intent.type = some "email")
    (hconf : intent.confidence.getD "low" = "high" ∨ intent.confidence.getD "low" = "medium") :
    process_intent env bot current_summary verified_facts intent =
      ([intent],
       if truthyOptStr bot then [Call.sendChat (bot.getD "") needRecipientsMsg] else []) ∧
    (∀ r s m v2, Call.sendEmail r s m v2
      ∉ (process_intent env bot current_summary verified_facts intent).2) ∧
    (truthyOptStr bot = false →
      (process_intent env bot current_summary verified_facts intent).2 = []) := by
  have hns : ¬ (intent.type = some "schedule") := by
    rw [htype]; decide
  have hmain : process_intent env bot current_summary verified_facts intent =
      ([intent],
       if truthyOptStr bot then [Call.sendChat (bot.getD "") needRecipientsMsg] else []) := by
    simp only [process_intent]
    rw [if_pos hconf, if_neg hns, htype, if_pos rfl]
    simp only [handle_email_intent, hrec, List.isEmpty_nil, if_true]
  refine ⟨hmain, ?_, ?_⟩
  · intro r s m v2
    rw [hmain]
    by_cases hb : truthyOptStr bot <;> simp [hb]
  · intro hb
    rw [hmain]
    simp [hb]

/-- The concrete environment exhibiting the C1 counterexample: the fact
detector returns a list whose single item is a bare string rather than a
dict, a shape `detect_factual_statements` can produce since it validates only
that the outer value is a list. -/
def envPyBad : EnvPy where
  detect_facts := fun _ => [.str "Revenue grew 20%"]
  detect_intents := fun _ _ => []
  verify_fact := fun _ _ => .dict [("success", .bool true)]
  send_chat := fun _ _ => .dict [("success", .bool true)]
  create_page := fun _ _ => .dict [("success", .bool true)]
  complete := fun _ => .ok "summary"
  nowStamp := "2024-10-04 12:00"

/-- Claim C1, counterexample: with a non-dict item in the detected-facts list,
`process_transcript` raises `AttributeError` out of the method instead of
returning normally, because the per-fact loop calls `fact.get` with no
enclosing `try`. -/
theorem process_transcript_py_raises :
    process_transcript_py envPyBad {} "We grew 20%"
      = .error "AttributeError: object has no attribute get" := rfl

/-- Claim C1 (amended): `finalize_meeting` never propagates an exception, and
`process_transcript` never propagates one provided every item of the
detected-facts list is a dict with a string (or falsy) claim, every
verification result and chat result is a well-shaped dict, every detected
intent is a dict, and the page-creation result is a dict; moreover the
records `process_transcript` stores in `verified_facts` always have the
dict shape `finalize_meeting` relies on. -/
theorem agent_methods_no_exception (env : EnvPy) (st : AgentStatePy) (t : String)
    (mt : Option String)
    (hf : ∀ f ∈ env.detect_facts t, WFFact f = true)
    (hv : ∀ c ctx, WFVerification (env.verify_fact c ctx) = true)
    (hc : ∀ b m, isDictB (env.send_chat b m) = true)
    (hi : ∀ i ∈ env.detect_intents t st.current_summary, isDictB i = true)
    (hsf : ∀ f ∈ st.verified_facts, WFStoredFact f = true)
    (hp : ∀ ti c, isDictB (env.create_page ti c) = true) :
    (∃ r, process_transcript_py env st t = .ok r ∧
      ∀ f ∈ r.1.verified_facts, WFStoredFact f = true) ∧
    (∃ r2, finalize_meeting_py env st mt = .ok r2) := by
  constructor
  · obtain ⟨res1, hres1, hq1⟩ := foldlM_append_ok
      (fun fact => process_fact_py env st.bot_id fact) WFStoredFact
      (env.detect_facts t) []
      (fun x hx => process_fact_py_ok env st.bot_id x (hf x hx) hv hc)
      (by simp)
    obtain ⟨res2, hres2, _⟩ := foldlM_append_ok
      (fun intent => process_intent_py intent) (fun _ => true)
      (env.detect_intents t st.current_summary) []
      (fun x hx => by
        obtain ⟨out, hout⟩ := process_intent_py_ok x (hi x hx)
        exact ⟨out, hout, by simp⟩)
      (by simp)
    refine ⟨({ st with
               transcripts := st.transcripts ++ [t],
               verified_facts := st.verified_facts ++ res1,
               detected_intents := st.detected_intents ++ res2,
               current_summary := some (Summarizer.summarize env.complete t st.current_summary) },
             { facts_detected := (env.detect_facts t).length,
               facts_verified := (st.verified_facts ++ res1).length,
               intents_detected := (env.detect_intents t st.current_summary).length,
               summary_length :=
                 (Summarizer.summarize env.complete t st.current_summary).length }),
            ?_, ?_⟩
    · simp only [process_transcript_py]
      rw [hres1, except_bind_ok, hres2, except_bind_ok]
      rfl
    · intro f hfm
      rcases List.mem_append.mp hfm with h | h
      · exact hsf f h
      · exact hq1 f h
  · have hfsum : ∃ s, finalize_summary_py env.complete st.transcripts st.verified_facts
        = .ok s := by
      simp only [finalize_summary_py]
      cases hemp : st.verified_facts.isEmpty with
      | true =>
        simp only [hemp, Bool.not_true, Bool.false_eq_true, if_false]
        rw [except_pure_bind]
        split
        · exact ⟨_, rfl⟩
        · exact ⟨_, rfl⟩
      | false =>
        simp only [hemp, Bool.not_false, if_true]
        obtain ⟨lines, hlines⟩ := mapM_except_ok
          (fun fact => do
            let claimV ← pyGet fact "claim" (.str "N/A")
            let statusV ← pyGet fact "verification_status" (.str "N/A")
            pure ("- " ++ pyStr claimV ++ ": " ++ pyStr statusV))
          st.verified_facts
          (fun x hx => by
            have hwx := hsf x hx
            cases x with
            | dict kvsx => exact ⟨_, rfl⟩
            | none => simp [WFStoredFact] at hwx
            | bool b => simp [WFStoredFact] at hwx
            | int n => simp [WFStoredFact] at hwx
            | str s => simp [WFStoredFact] at hwx
            | list xs => simp [WFStoredFact] at hwx)
        rw [hlines, except_bind_ok, except_pure_bind]
        split
        · exact ⟨_, rfl⟩
        · exact ⟨_, rfl⟩
    obtain ⟨fsum, hfsum⟩ := hfsum
    simp only [finalize_meeting_py]
    rw [hfsum, except_bind_ok]
    have hpage : ∀ ti c, ∃ out,
        (do
          let successV ← pyGet (env.create_page ti c) "success" PyVal.none
          let urlV ← pyGet (env.create_page ti c) "url" PyVal.none
          pure (st,
            PyVal.dict
              [("success", successV), ("notion_url", urlV),
               ("summary_length", .int fsum.length),
               ("facts_verified", .int st.verified_facts.length),
               ("transcript_segments", .int st.transcripts.length)])) = Except.ok out := by
      intro ti c
      have hpd := hp ti c
      cases hpg : env.create_page ti c with
      | dict kvsp => exact ⟨_, rfl⟩
      | none => rw [hpg] at hpd; simp [isDictB] at hpd
      | bool b => rw [hpg] at hpd; simp [isDictB] at hpd
      | int n => rw [hpg] at hpd; simp [isDictB] at hpd
      | str s => rw [hpg] at hpd; simp [isDictB] at hpd
      | list xs => rw [hpg] at hpd; simp [isDictB] at hpd
    cases hemp : st.verified_facts.isEmpty with
    | true =>
      simp only [hemp, Bool.not_true, Bool.false_eq_true, if_false]
      exact hpage _ _
    | false =>
      simp only [hemp, Bool.not_false, if_true]
      obtain ⟨lines, hlines⟩ := mapM_except_ok
        (fun fact => do
          let claimV ← pyGet fact "claim" (.str "N/A")
          let verificationV ← pyGet fact "verification" (.dict [])
          let verifiedV ← pyGet verificationV "verified" PyVal.none
          let status := if pyTruthy verifiedV then "âœ… VERIFIED" else "âš\u00A0ï¸ NEEDS VERIFICATION"
          pure ("- " ++ pyStr claimV ++ ": " ++ status ++ "\n"))
        st.verified_facts
        (fun x hx => by
          have hwx := hsf x hx
          cases x with
          | dict kvsx =>
            simp only [pyGet_dict, except_bind_ok]
            cases hvv : (kvsx.lookup "verification").getD (.dict []) with
            | dict kvsv => exact ⟨_, rfl⟩
            | none => simp [WFStoredFact, hvv] at hwx
            | bool b => simp [WFStoredFact, hvv] at hwx
            | int n => simp [WFStoredFact, hvv] at hwx
            | str s => simp [WFStoredFact, hvv] at hwx
            | list xs => simp [WFStoredFact, hvv] at hwx
          | none => simp [WFStoredFact] at hwx
          | bool b => simp [WFStoredFact] at hwx
          | int n => simp [WFStoredFact] at hwx
          | str s => simp [WFStoredFact] at hwx
          | list xs => simp [WFStoredFact] at hwx)
      rw [hlines, except_bind_ok]
      exact hpage _ _

/-- The concrete well-shaped environment used by the C1 witness. -/
def envPyGood : EnvPy where
  detect_facts := fun _ => [.dict [("claim", .str "Revenue grew 20%"),
                                   ("context", .str "Q3 review")]]
  detect_intents := fun _ _ => [.dict [("type", .str "email"),
                                       ("confidence", .str "high")]]
  verify_fact := fun _ _ => .dict [("success", .bool true), ("verified", .bool true),
    ("sources", .list [.dict [("title", .str "T"), ("snippet", .str "S"),
                              ("url", .str "http://x")]])]
  send_chat := fun _ _ => .dict [("success", .bool true)]
  create_page := fun _ _ => .dict [("success", .bool true), ("url", .str "http://p")]
  complete := fun _ => .ok "summary"
  nowStamp := "2024-10-04 12:00"

/-- Witness for the amended C1: on a well-shaped environment with a bot id
set, both methods return normally. -/
theorem agent_methods_no_exception_witness :
    (∀ f ∈ envPyGood.detect_facts "t", WFFact f = true) ∧
    (∀ c ctx, WFVerification (envPyGood.verify_fact c ctx) = true) ∧
    (∀ b m, isDictB (envPyGood.send_chat b m) = true) ∧
    (∀ i ∈ envPyGood.detect_intents "t"
        ({ bot_id := some "b1" } : AgentStatePy).current_summary, isDictB i = true) ∧
    (∀ f ∈ ({ bot_id := some "b1" } : AgentStatePy).verified_facts, WFStoredFact f = true) ∧
    (∀ ti c, isDictB (envPyGood.create_page ti c) = true) ∧
    ((∃ r, process_transcript_py envPyGood { bot_id := some "b1" } "t" = .ok r ∧
        ∀ f ∈ r.1.verified_facts, WFStoredFact f = true) ∧
      (∃ r2, finalize_meeting_py envPyGood { bot_id := some "b1" } none = .ok r2)) := by
  refine ⟨?_, ?_, ?_, ?_, ?_, ?_, ?_⟩
  · intro f hfm; rw [List.mem_singleton.mp hfm]; decide
  · intro c ctx; rfl
  · intro b m; rfl
  · intro i him; rw [List.mem_singleton.mp him]; decide
  · intro f hfm; exact absurd hfm (List.not_mem_nil f)
  · intro ti c; rfl
  · exact agent_methods_no_exception envPyGood { bot_id := some "b1" } "t" none
      (fun f hfm => by rw [List.mem_singleton.mp hfm]; decide)
      (fun c ctx => rfl)
      (fun b m => rfl)
      (fun i him => by rw [List.mem_singleton.mp him]; decide)
      (fun f hfm => absurd hfm (List.not_mem_nil f))
      (fun ti c => rfl)

/-- Claim C2: the date/time heuristic conforms to its specification: on a
fixed `today`, date "tomorrow" resolves to today + 1; "next week" to
today + (7 − weekday); "next friday" or bare "friday" to a day k ahead with
1 ≤ k ≤ 7 landing on a Friday, and k = 7 when today is already Friday; time
"2pm" resolves to "14:00" and "12am" to "00:00"; an empty details mapping
returns null; and when neither field resolves the result is null even though
raw strings were present. -/
theorem parse_datetime_conforms (today : Nat) :
    (parse_datetime today { date := some "tomorrow" } =
      some { raw_date := "tomorrow", raw_time := "",
             date := some (fmtDate (today + 1)), time := none }) ∧
    (parse_datetime today { date := some "next week" } =
      some { raw_date := "next week", raw_time := "",
             date := some (fmtDate (today + (7 - weekday today))), time := none }) ∧
    (∃ k, 1 ≤ k ∧ k ≤ 7 ∧ weekday (today + k) = 4 ∧ (weekday today = 4 → k = 7) ∧
      parse_datetime today { date := some "next friday" } =
        some { raw_date := "next friday", raw_time := "",
               date := some (fmtDate (today + k)), time := none } ∧
      parse_datetime today { date := some "friday" } =
        some { raw_date := "friday", raw_time := "",
               date := some (fmtDate (today + k)), time := none }) ∧
    (parse_datetime today { time := some "2pm" } =
      some { raw_date := "", raw_time := "2pm", date := none, time := some "14:00" }) ∧
    (parse_datetime today { time := some "12am" } =
      some { raw_date := "", raw_time := "12am", date := none, time := some "00:00" }) ∧
    (parse_datetime today {} = none) ∧
    (∀ ds ts, containsSub "tomorrow" (pyLower ds) = false →
      containsSub "next week" (pyLower ds) = false →
      containsSub "friday" (pyLower ds) = false →
      timeSearch (pyLower ts).toList = none →
      parse_datetime today { date := some ds, time := some ts } = none) := by
  refine ⟨?_, ?_, ?_, ?_, ?_, ?_, ?_⟩
  · have hc : containsSub "tomorrow" (pyLower "tomorrow") = true := by decide
    simp [parse_datetime, truthyOptStr_fmtDate, hc]
  · have hc1 : containsSub "tomorrow" (pyLower "next week") = false := by decide
    have hc2 : containsSub "next week" (pyLower "next week") = true := by decide
    simp [parse_datetime, truthyOptStr_fmtDate, hc1, hc2]
  · refine ⟨if (4 + 7 - weekday today) % 7 = 0 then 7 else (4 + 7 - weekday today) % 7,
      ?_, ?_, ?_, ?_, ?_, ?_⟩
    · unfold weekday; split <;> omega
    · unfold weekday; split <;> omega
    · unfold weekday
      split <;> omega
    · unfold weekday
      intro h4
      rw [if_pos (by omega)]
    · have hc1 : containsSub "tomorrow" (pyLower "next friday") = false := by decide
      have hc2 : containsSub "next week" (pyLower "next friday") = false := by decide
      have hc3 : containsSub "next friday" (pyLower "next friday") = true := by decide
      simp [parse_datetime, truthyOptStr_fmtDate, hc1, hc2, hc3]
    · have hc1 : containsSub "tomorrow" (pyLower "friday") = false := by decide
      have hc2 : containsSub "next week" (pyLower "friday") = false := by decide
      have hc3 : containsSub "next friday" (pyLower "friday") = false := by decide
      have hc4 : containsSub "friday" (pyLower "friday") = true := by decide
      simp [parse_datetime, truthyOptStr_fmtDate, hc1, hc2, hc3, hc4]
  · have ht : parse_time_str "2pm" = some "14:00" := by decide
    have e1 : containsSub "tomorrow" "" = false := by decide
    have e2 : containsSub "next week" "" = false := by decide
    have e3 : containsSub "next friday" "" = false := by decide
    have e4 : containsSub "friday" "" = false := by decide
    simp [parse_datetime, ht, e1, e2, e3, e4, truthyOptStr, truthyStr]
  · have ht : parse_time_str "12am" = some "00:00" := by decide
    have e1 : containsSub "tomorrow" "" = false := by decide
    have e2 : containsSub "next week" "" = false := by decide
    have e3 : containsSub "next friday" "" = false := by decide
    have e4 : containsSub "friday" "" = false := by decide
    simp [parse_datetime, ht, e1, e2, e3, e4, truthyOptStr, truthyStr]
  · rfl
  · intro ds ts h1 h2 h3 h4
    have h3b : containsSub "next friday" (pyLower ds) = false := by
      have hfr : ("friday".toList : List Char) <:+: "next friday".toList := by decide
      have hnf : ¬ ("next friday".toList <:+: (pyLower ds).toList) := by
        intro hin
        exact (of_decide_eq_false h3) (hfr.trans hin)
      exact decide_eq_false hnf
    have ht : parse_time_str ts = none := by
      unfold parse_time_str
      rw [h4]
    by_cases hboth : ds = "" ∧ ts = ""
    · simp [parse_datetime, hboth.1, hboth.2]
    · by_cases hds : ds = ""
      · have e1 : containsSub "tomorrow" "" = false := by decide
        have e2 : containsSub "next week" "" = false := by decide
        have e3 : containsSub "next friday" "" = false := by decide
        have e4 : containsSub "friday" "" = false := by decide
        simp [parse_datetime, hds, hboth, e1, e2, e3, e4, ht, truthyOptStr, truthyStr]
      · simp [parse_datetime, hds, hboth, h1, h2, h3, h3b, ht, truthyOptStr, truthyStr]

/-- Witness for C2 at today = day 20000 (2024-10-04, a Friday): a date string
matching no keyword together with a digit-free time string yields null, and
"tomorrow" resolves to day 20001. -/
theorem parse_datetime_conforms_witness :
    containsSub "tomorrow" (pyLower "someday") = false ∧
    containsSub "next week" (pyLower "someday") = false ∧
    containsSub "friday" (pyLower "someday") = false ∧
    timeSearch (pyLower "noon").toList = none ∧
    parse_datetime 20000 { date := some "someday", time := some "noon" } = none ∧
    parse_datetime 20000 { date := some "tomorrow" } =
      some { raw_date := "tomorrow", raw_time := "",
             date := some (fmtDate 20001), time := none } := by
  refine ⟨by decide, by decide, by decide, by decide, ?_, ?_⟩
  · exact (parse_datetime_conforms 20000).2.2.2.2.2.2 "someday" "noon"
      (by decide) (by decide) (by decide) (by decide)
  · exact (parse_datetime_conforms 20000).1

/-- Claim C3: a `{claim, context, verification}` record is appended to
`verified_facts` exactly for the detected claims with non-empty text whose
verification reports success, in detection order after the previously
accumulated facts; the appended records do not depend on the bot id or on the
chat adapter (the chat result is only logged). -/
theorem verified_facts_append_order (env : Env) (st : AgentState) (t : String)
    (b : Option String) (sc : String → String → ChatResult) :
    (process_transcript env st t).1.verified_facts =
      st.verified_facts ++ (env.detect_facts t).filterMap (fun fact =>
        if fact.claim.getD "" ≠ "" ∧ (env.verify_fact (fact.claim.getD "") fact.context).success
        then some { claim := fact.claim.getD "", context := fact.context,
                    verification := env.verify_fact (fact.claim.getD "") fact.context }
        else none) ∧
    (process_transcript env { st with bot_id := b } t).1.verified_facts
      = (process_transcript env st t).1.verified_facts ∧
    (process_transcript { env with send_chat := sc } st t).1.verified_facts
      = (process_transcript env st t).1.verified_facts := by
  refine ⟨process_transcript_verified_facts env st t, ?_, ?_⟩
  · rw [process_transcript_verified_facts, process_transcript_verified_facts]
  · rw [process_transcript_verified_facts, process_transcript_verified_facts]

/-- Claim C4: on a segment with no detected facts and no detected intents,
`process_transcript` reports zero for both counts, still updates the rolling
summary from the new segment and the prior summary, and its external calls are
exactly one detection call of each kind plus exactly one summarizer call. -/
theorem process_transcript_no_detection (env : Env) (st : AgentState) (t : String)
    (hf : env.detect_facts t = [])
    (hi : env.detect_intents t st.current_summary = []) :
    (process_transcript env st t).2.1.facts_detected = 0 ∧
    (process_transcript env st t).2.1.intents_detected = 0 ∧
    (process_transcript env st t).1.current_summary =
      some (Summarizer.summarize env.complete t st.current_summary) ∧
    (process_transcript env st t).2.2 =
      [Call.detectFacts t, Call.detectIntents t st.current_summary,
       Call.summarizeLLM t st.current_summary] ∧
    ((process_transcript env st t).2.2.countP isSummarizeCall) = 1 := by
  refine ⟨?_, ?_, ?_, ?_, ?_⟩ <;>
    simp [process_transcript, hf, hi, isSummarizeCall, List.countP_cons]

/-- The concrete environment used by the witnesses: both detectors find
nothing, every adapter returns its default-shaped result, and the LLM call
fails. -/
def envW : Env where
  detect_facts := fun _ => []
  detect_intents := fun _ _ => []
  verify_fact := fun _ _ => {}
  send_chat := fun _ _ => {}
  create_event := fun _ _ _ _ => {}
  send_email := fun _ _ _ _ => {}
  create_page := fun _ _ => {}
  complete := fun _ => .error "offline"
  nowDate := "2024-10-04"
  nowStamp := "2024-10-04 12:00"

/-- Witness for C4 at a concrete environment and the fresh session state. -/
theorem process_transcript_no_detection_witness :
    envW.detect_facts "hello" = [] ∧
    envW.detect_intents "hello" (VeriMeetAgent.init none).current_summary = [] ∧
    ((process_transcript envW (VeriMeetAgent.init none) "hello").2.1.facts_detected = 0 ∧
     (process_transcript envW (VeriMeetAgent.init none) "hello").2.1.intents_detected = 0 ∧
     (process_transcript envW (VeriMeetAgent.init none) "hello").1.current_summary =
       some (Summarizer.summarize envW.complete "hello" (VeriMeetAgent.init none).current_summary) ∧
     (process_transcript envW (VeriMeetAgent.init none) "hello").2.2 =
       [Call.detectFacts "hello",
        Call.detectIntents "hello" (VeriMeetAgent.init none).current_summary,
        Call.summarizeLLM "hello" (VeriMeetAgent.init none).current_summary] ∧
     ((process_transcript envW (VeriMeetAgent.init none) "hello").2.2.countP isSummarizeCall) = 1) :=
  ⟨rfl, rfl, process_transcript_no_detection envW (VeriMeetAgent.init none) "hello" rfl rfl⟩

/-- Claim C7: an intent is retained in `detected_intents` exactly when its
confidence (defaulting to "low" when missing) is "high" or "medium", in
detection order; hence every element of `detected_intents` has high or medium
confidence, an invariant established by `__init__` and preserved by
`process_transcript`, `finalize_meeting` and `set_bot_id`. -/
theorem detected_intents_confidence_invariant (env : Env) (st : AgentState) (t : String)
    (mt : Option String) (b : String) (bo : Option String) :
    (process_transcript env st t).1.detected_intents =
      st.detected_intents
        ++ (env.detect_intents t st.current_summary).filter intentRetained ∧
    (AgentInv st → AgentInv (process_transcript env st t).1) ∧
    (AgentInv st → AgentInv (finalize_meeting env st mt).1) ∧
    AgentInv (VeriMeetAgent.init bo) ∧
    (AgentInv st → AgentInv (set_bot_id st b)) := by
  have hchar := process_transcript_detected_intents env st t
  refine ⟨hchar, ?_, ?_, ?_, ?_⟩
  · intro hinv
    simp only [AgentInv] at hinv ⊢
    intro i hi
    rw [hchar] at hi
    rcases List.mem_append.mp hi with h | h
    · exact hinv i h
    · have hb : intentRetained i = true := (List.mem_filter.mp h).2
      have hok : i.confidence.getD "low" = "high" ∨ i.confidence.getD "low" = "medium" :=
        of_decide_eq_true hb
      exact hok
  · intro hinv
    exact hinv
  · simp only [AgentInv, VeriMeetAgent.init]
    intro i hi
    exact absurd hi (List.not_mem_nil i)
  · intro hinv
    exact hinv

/-- Witness for C7: the fresh session satisfies the invariant and keeps it
after processing a segment. -/
theorem detected_intents_confidence_invariant_witness :
    AgentInv (VeriMeetAgent.init none) ∧
    AgentInv (process_transcript envW (VeriMeetAgent.init none) "hi").1 :=
  have h := detected_intents_confidence_invariant envW (VeriMeetAgent.init none) "hi" none "b" none
  ⟨h.2.2.2.1, h.2.1 h.2.2.2.1⟩

/-- The concrete retained email intent used by the C6 witness. -/
def emailIntentW : Intent := { type := some "email", confidence := some "high" }

/-- Witness for C6: a high-confidence email intent with no details at all,
processed with a bot id set, posts exactly the recipients-needed chat
message. -/
theorem email_intent_without_recipients_witness :
    (emailIntentW.details.getD {}).recipients = [] ∧
    emailIntentW.type = some "email" ∧
    (emailIntentW.confidence.getD "low" = "high" ∨ emailIntentW.confidence.getD "low" = "medium") ∧
    process_intent envW (some "bot1") none [] emailIntentW =
      ([emailIntentW], [Call.sendChat "bot1" needRecipientsMsg]) := by
  refine ⟨rfl, rfl, Or.inl rfl, ?_⟩
  have h := (email_intent_without_recipients envW (some "bot1") none [] emailIntentW
    rfl rfl (Or.inl rfl)).1
  rw [h]
  rfl

/-- Claim C8: `Summarizer.summarize` and `Summarizer.finalize_summary` always
return a string and never raise: when the external call succeeds they return
its text stripped of surrounding whitespace, and when it fails they return a
failure-marker string built from the error text. -/
theorem summarizer_never_raises (complete : String → Except String String)
    (transcript : String) (previous_summary : Option String)
    (all_transcripts : List String) (verified_facts : List VFact) :
    (∀ c, complete (summarizePrompt transcript previous_summary) = .ok c →
      Summarizer.summarize complete transcript previous_summary = pyStrip c) ∧
    (∀ e, complete (summarizePrompt transcript previous_summary) = .error e →
      Summarizer.summarize complete transcript previous_summary
        = "Summary generation failed: " ++ e) ∧
    (∀ c, complete (finalizePrompt all_transcripts verified_facts) = .ok c →
      Summarizer.finalize_summary complete all_transcripts verified_facts = pyStrip c) ∧
    (∀ e, complete (finalizePrompt all_transcripts verified_facts) = .error e →
      Summarizer.finalize_summary complete all_transcripts verified_facts
        = "Final summary generation failed: " ++ e) := by
  refine ⟨?_, ?_, ?_, ?_⟩ <;> intro x h <;>
    simp [Summarizer.summarize, Summarizer.finalize_summary, h]

/-- Witness for C8 at concrete oracles: a successful call is trimmed, a failing
call yields the marker string. -/
theorem summarizer_never_raises_witness :
    (fun _ : String => (Except.ok "  hi  " : Except String String)) (summarizePrompt "t" none)
      = .ok "  hi  " ∧
    Summarizer.summarize (fun _ => .ok "  hi  ") "t" none = "hi" ∧
    (fun _ : String => (Except.error "boom" : Except String String)) (finalizePrompt ["t"] [])
      = .error "boom" ∧
    Summarizer.finalize_summary (fun _ => .error "boom") ["t"] []
      = "Final summary generation failed: boom" := by
  refine ⟨rfl, ?_, rfl, ?_⟩
  · have h := (summarizer_never_raises (fun _ => .ok "  hi  ") "t" none [] []).1 "  hi  " rfl
    rw [h]; rfl
  · exact (summarizer_never_raises (fun _ => .error "boom") "t" none ["t"] []).2.2.2 "boom" rfl

end VeriMeet
